import Mathlib

/-!
# Verification of the wireguard-rs core excerpt

Shallow embedding of the two source files of the repository excerpt:

* `src/wireguard/workers.rs` — the `padding` function, the UDP worker's
  per-datagram demultiplexing step, and the handshake worker's per-job step;
* `src/platform/linux/udp.rs` — the `LinuxEndpoint` address conversions,
  `LinuxUDP::bind` and the `LinuxUDPWriter` send path.

Conventions of the embedding:

* The target is 64-bit little-endian Linux (the source lives under
  `platform/linux`); `usize`/`u32`/`u128` arithmetic is `Nat` with explicit
  reduction modulo the word size wherever the source can wrap.
* External collaborators that are not part of the excerpt (the Noise
  handshake engine, the router, the kernel's syscalls) enter as explicit
  oracle arguments; every call the worker makes to them is recorded in an
  event log so the theorems can speak about "what was sent".
-/

/-- The modulus of 64-bit `usize` arithmetic (the source targets 64-bit Linux). -/
def USIZE : Nat := 2 ^ 64

/-- Modelled from the spec: `MESSAGE_PADDING_MULTIPLE` is imported from
`constants.rs`, which is missing from the excerpt; the spec calls it "a fixed
constant" without giving its value.  WireGuard pads transport payloads to a
multiple of 16 bytes, so the model fixes 16. -/
def MESSAGE_PADDING_MULTIPLE : Nat := 16

/-- The branchless `min` nested inside `padding` (workers.rs line 49):
`let m = (a < b) as usize; a * m + (1 - m) * b`. -/
def rustMin (a b : Nat) : Nat :=
  let m : Nat := if a < b then 1 else 0
  a * m + (1 - m) * b

/-- `padding` (workers.rs lines 47-55):
`min(mtu, size + (pad - size % pad) % pad)` with `pad = MESSAGE_PADDING_MULTIPLE`.
The `usize` addition `size + _` wraps modulo `2^64` (release-profile semantics;
a debug build panics on the same inputs, so at the wrapping inputs the source
never produces the mathematical round-up either way). -/
def padding (size mtu : Nat) : Nat :=
  let pad := MESSAGE_PADDING_MULTIPLE
  rustMin mtu ((size + (pad - size % pad) % pad) % USIZE)

/-! ## `LinuxEndpoint` and its address conversions (src/platform/linux/udp.rs)

The embedding targets a 64-bit little-endian Linux host, so `u32::to_be` is a
byte swap and `u128::from_ne_bytes` reads byte 0 as least significant.  An
IPv4 address is carried as the host-order `u32` value (in that representation
`u32::from(ip)` and `Ipv4Addr::from(u32)` are both the identity); an IPv6
address is carried as its sixteen octets, exactly as `Ipv6Addr::octets`. -/

/-- `u32::to_be` on a little-endian target: swap the four bytes. -/
def bswap32 (v : Nat) : Nat :=
  v % 256 * 2 ^ 24 + v / 2 ^ 8 % 256 * 2 ^ 16 + v / 2 ^ 16 % 256 * 2 ^ 8 +
    v / 2 ^ 24 % 256

/-- `u128::from_ne_bytes` on a little-endian target: byte 0 is least
significant. -/
def u128FromLeBytes (bs : List Nat) : Nat :=
  bs.foldr (fun b acc => b + 256 * acc) 0

/-- `Ipv6Addr::from(v : u128)`: the sixteen octets of `v`, most significant
first. -/
def ipv6OctetsOfU128 (v : Nat) : List Nat :=
  (List.range 16).map fun j => v / 256 ^ (15 - j) % 256

/-- `std::net::SocketAddrV4` (address as host-order `u32` value). -/
structure SocketAddrV4 where
  ip : Nat
  port : Nat
deriving DecidableEq, Repr

/-- `std::net::SocketAddrV6` (address as its sixteen octets). -/
structure SocketAddrV6 where
  ip : List Nat
  port : Nat
  flowinfo : Nat
  scopeId : Nat
deriving DecidableEq, Repr

/-- `std::net::SocketAddr`. -/
inductive RustSocketAddr where
  | V4 : SocketAddrV4 → RustSocketAddr
  | V6 : SocketAddrV6 → RustSocketAddr
deriving DecidableEq, Repr

/-- `libc::sockaddr_in` (the fields the source reads or writes). -/
structure SockaddrIn where
  sin_family : Nat
  sin_port : Nat
  sin_addr : Nat
deriving DecidableEq, Repr

/-- `libc::in_pktinfo`. -/
structure InPktinfo where
  ipi_ifindex : Nat
  ipi_spec_dst : Nat
  ipi_addr : Nat
deriving DecidableEq, Repr

/-- `libc::sockaddr_in6` (the fields the source reads or writes). -/
structure SockaddrIn6 where
  sin6_family : Nat
  sin6_port : Nat
  sin6_flowinfo : Nat
  sin6_addr : List Nat
  sin6_scope_id : Nat
deriving DecidableEq, Repr

/-- `libc::in6_pktinfo`. -/
structure In6Pktinfo where
  ipi6_addr : List Nat
  ipi6_ifindex : Nat
deriving DecidableEq, Repr

/-- `EndpointV4` (udp.rs lines 35-38): destination plus packet-info source
hint. -/
structure EndpointV4 where
  dst : SockaddrIn
  info : InPktinfo
deriving DecidableEq, Repr

/-- `EndpointV6` (udp.rs lines 40-43). -/
structure EndpointV6 where
  dst : SockaddrIn6
  info : In6Pktinfo
deriving DecidableEq, Repr

/-- `LinuxEndpoint` (udp.rs lines 64-67). -/
inductive LinuxEndpoint where
  | V4 : EndpointV4 → LinuxEndpoint
  | V6 : EndpointV6 → LinuxEndpoint
deriving DecidableEq, Repr

def AF_INET : Nat := 2

def AF_INET6 : Nat := 10

/-- `LinuxEndpoint::from_address` (udp.rs lines 83-116).  The source converts
the IPv4 address to network byte order with `to_be()` but stores both ports
without conversion; the IPv6 octets are stored as octets. -/
def from_address (addr : RustSocketAddr) : LinuxEndpoint :=
  match addr with
  | .V4 a =>
      .V4 { dst := { sin_family := AF_INET, sin_port := a.port,
                     sin_addr := bswap32 a.ip },
            info := { ipi_ifindex := 0, ipi_spec_dst := 0, ipi_addr := 0 } }
  | .V6 a =>
      .V6 { dst := { sin6_family := AF_INET6, sin6_port := a.port,
                     sin6_flowinfo := a.flowinfo, sin6_addr := a.ip,
                     sin6_scope_id := a.scopeId },
            info := { ipi6_addr := List.replicate 16 0, ipi6_ifindex := 0 } }

/-- `LinuxEndpoint::into_address` (udp.rs lines 118-133).  The IPv4 address is
read back with `Ipv4Addr::from(u32)` and no `from_be`; the IPv6 octets go
through `u128::from_ne_bytes` (little-endian) then `Ipv6Addr::from(u128)`
(big-endian), i.e. they come back byte-reversed. -/
def into_address (e : LinuxEndpoint) : RustSocketAddr :=
  match e with
  | .V4 ep => .V4 { ip := ep.dst.sin_addr, port := ep.dst.sin_port }
  | .V6 ep =>
      .V6 { ip := ipv6OctetsOfU128 (u128FromLeBytes ep.dst.sin6_addr),
            port := ep.dst.sin6_port, flowinfo := ep.dst.sin6_flowinfo,
            scopeId := ep.dst.sin6_scope_id }

/-- `LinuxEndpoint::clear_src` (udp.rs lines 70-81): zero the source hint in
place, leaving the destination untouched. -/
def clear_src (e : LinuxEndpoint) : LinuxEndpoint :=
  match e with
  | .V4 ep => .V4 { ep with info := { ep.info with ipi_ifindex := 0, ipi_spec_dst := 0 } }
  | .V6 ep => .V6 { ep with info := { ipi6_addr := List.replicate 16 0, ipi6_ifindex := 0 } }

/-! ## Shared device state and the worker steps (src/wireguard/workers.rs)

The workers mutate a shared `Wireguard` device through a fixed set of
operations: the sequentially-consistent `pending` counter, the bounded
handshake-job channel, and calls into the router, the bind writer and the
per-peer timer machines.  The model makes that state explicit and records
every outward call in an append-only log, so a theorem can say exactly what a
worker iteration did.  External collaborators (handshake engine, router,
peer table) are supplied as oracle inputs. -/

/-- `HandshakeJob` (workers.rs lines 30-33); the x25519 public key is opaque
and modelled as a `Nat`. -/
inductive HandshakeJob (E : Type) where
  | Message : List Nat → E → HandshakeJob E
  | New : Nat → HandshakeJob E
deriving DecidableEq

/-- The calls the handshake worker makes into a peer's timer state machine. -/
inductive TimerMark where
  | sentHandshakeResponse
  | handshakeCompleted
  | sessionDerived
  | sentHandshakeInitiation
deriving DecidableEq

/-- Observable state touched by the UDP and handshake workers.  `pending` is
the shared atomic counter `wg.pending`; `queue` the handshake channel
contents; `lastUnderLoad` the UDP worker's local timestamp; the remaining
fields are append-only logs of the calls made to the router
(`routerRecv`, `routerSends`, `endpoints`, `installs`), the bind writer
(`written`), the peers' byte counters and timers (`rxEvents`, `txEvents`,
`marks`), the handshake engine's id pool (`released`) and the
`handshake_queued` flags (`queuedCleared`). -/
structure DeviceState (E : Type) where
  pending : Nat
  queue : List (HandshakeJob E)
  routerRecv : List (E × List Nat)
  lastUnderLoad : Int
  written : List (List Nat × E)
  routerSends : List (Nat × List Nat)
  marks : List (Nat × TimerMark)
  endpoints : List (Nat × E)
  rxEvents : List (Nat × Nat)
  txEvents : List (Nat × Nat)
  installs : List (Nat × Nat)
  released : List Nat
  queuedCleared : List Nat
deriving DecidableEq

/-- A fresh device: zero pending jobs, empty queue and logs, and the UDP
worker's `last_under_load` initialised to `t0` (the source sets it to
`Instant::now() - TIME_HORIZON`, i.e. far in the past). -/
def initState {E : Type} (t0 : Int) : DeviceState E :=
  { pending := 0, queue := [], routerRecv := [], lastUnderLoad := t0, written := [], routerSends := [], marks := [], endpoints := [], rxEvents := [], txEvents := [], installs := [], released := [], queuedCleared := [] }

/-- Modelled from the spec: the message-type tags are imported by workers.rs
from the handshake and router modules, which are missing from the excerpt.
The spec's wire-format section lists initiation, response, cookie-reply,
transport in that order, and its scenarios S2/S3 pin initiation = 0x01 and
transport = 0x04. -/
def TYPE_INITIATION : Nat := 1

/-- Modelled from the spec: see `TYPE_INITIATION`. -/
def TYPE_RESPONSE : Nat := 2

/-- Modelled from the spec: see `TYPE_INITIATION`. -/
def TYPE_COOKIE_REPLY : Nat := 3

/-- Modelled from the spec: see `TYPE_INITIATION`. -/
def TYPE_TRANSPORT : Nat := 4

/-- `LittleEndian::read_u32` over the first four bytes of the datagram. -/
def readU32LE (msg : List Nat) : Nat :=
  msg.getD 0 0 + 256 * msg.getD 1 0 + 65536 * msg.getD 2 0 + 16777216 * msg.getD 3 0

/-- One iteration of `udp_worker` (workers.rs lines 106-159) after a datagram
`msg` from endpoint `src` has been read, with the MTU loaded as `mtu`, at
time `now`.  `threshold` stands for `THRESHOLD_UNDER_LOAD`, imported from the
missing `constants.rs`; modelled from the spec, which fixes no numeric value,
so it stays an explicit parameter.  Note `fetch_add(1)` returns the counter's
*previous* value and that previous value is what the source compares against
the threshold; the `DURATION_UNDER_LOAD` branch only logs, and a failed
`router.recv` is only logged as well. -/
def udpStep {E : Type} (threshold : Nat) (now : Int) (mtu : Nat) (msg : List Nat) (src : E) (s : DeviceState E) : DeviceState E :=
  if mtu = 0 then s
  else if msg.length < 4 then s
  else if readU32LE msg = TYPE_COOKIE_REPLY ∨ readU32LE msg = TYPE_INITIATION ∨ readU32LE msg = TYPE_RESPONSE then
    let pending := s.pending
    { s with pending := (s.pending + 1) % USIZE, lastUnderLoad := if threshold < pending then now else s.lastUnderLoad, queue := s.queue ++ [HandshakeJob.Message msg src] }
  else if readU32LE msg = TYPE_TRANSPORT then
    { s with routerRecv := s.routerRecv ++ [(src, msg)] }
  else s

/-! ## The handshake worker (workers.rs lines 162-280) -/

/-- The payload of a successful `device.process` call on the handshake
engine: optionally an authenticated peer public key, optionally reply bytes,
optionally a freshly derived keypair (keypairs are opaque). -/
structure ProcessOutput where
  pk : Option Nat
  resp : Option (List Nat)
  keypair : Option Nat
deriving DecidableEq

/-- Oracle inputs of one handshake-worker iteration.  The handshake engine,
the writer slot, the peer table and the router are external collaborators:
`processResult` is what `device.process` returns (`none` models `Err(_)`,
which the worker only logs), `beginResult` what `device.begin` returns,
`writerPresent` whether `wg.send` currently holds a writer, `knownPeers` the
public keys present in `wg.peers`, and `evictedIds` the session ids
`router.add_keypair` hands back for release. -/
structure HsEnv where
  processResult : Option ProcessOutput
  beginResult : Option (List Nat)
  writerPresent : Bool
  knownPeers : List Nat
  evictedIds : List Nat
deriving DecidableEq

/-- `fetch_sub(1)` on the `usize` pending counter (wraps below zero). -/
def fetchSub1 (p : Nat) : Nat := (p + (USIZE - 1)) % USIZE

/-- `writer.write(resp, src)` (workers.rs line 209): log the datagram handed
to the bind writer. -/
def addWritten {E : Type} (r : List Nat) (src : E) (s : DeviceState E) : DeviceState E :=
  { s with written := s.written ++ [(r, src)] }

/-- The peer-record updates of workers.rs lines 224-229: credit `rx_bytes`
and `tx_bytes` and call `peer.router.set_endpoint(src)`. -/
def creditPeer {E : Type} (pk reqLen respLen : Nat) (src : E) (s : DeviceState E) : DeviceState E :=
  { s with rxEvents := s.rxEvents ++ [(pk, reqLen)], txEvents := s.txEvents ++ [(pk, respLen)], endpoints := s.endpoints ++ [(pk, src)] }

/-- A call into the peer's timer state machine. -/
def addMark {E : Type} (pk : Nat) (m : TimerMark) (s : DeviceState E) : DeviceState E :=
  { s with marks := s.marks ++ [(pk, m)] }

/-- `peer.router.add_keypair(kp)` plus the release loop (workers.rs lines
252-254): install the keypair and hand every evicted id back to the engine. -/
def addInstall {E : Type} (pk kp : Nat) (ids : List Nat) (s : DeviceState E) : DeviceState E :=
  { s with installs := s.installs ++ [(pk, kp)], released := s.released ++ ids }

/-- `peer.router.send(msg)` for a handshake initiation (workers.rs line 270). -/
def addRouterSend {E : Type} (pk : Nat) (m : List Nat) (s : DeviceState E) : DeviceState E :=
  { s with routerSends := s.routerSends ++ [(pk, m)] }

/-- `peer.handshake_queued.store(false)` (workers.rs line 275). -/
def clearQueued {E : Type} (pk : Nat) (s : DeviceState E) : DeviceState E :=
  { s with queuedCleared := s.queuedCleared ++ [pk] }

/-- `resp_len` (workers.rs lines 200-202): the length of the reply the engine
produced, 0 when there is none. -/
def respLenOf (resp : Option (List Nat)) : Nat :=
  match resp with
  | some r => r.length
  | none => 0

/-- workers.rs lines 201-217: when the engine produced a reply, send it to
`src` through the writer — but only if a writer is currently installed
(`wg.send` may be empty during reconfiguration); a send failure is only
logged. -/
def sendReply {E : Type} (writerPresent : Bool) (resp : Option (List Nat)) (src : E) (s : DeviceState E) : DeviceState E :=
  match resp with
  | some r => if writerPresent then addWritten r src s else s
  | none => s

/-- workers.rs lines 220-257: if the engine authenticated a peer public key
that is present in the peer table, credit the peer's byte counters, set its
router endpoint to `src`, mark its timers — "sent handshake response" when
`resp_len > 0`, "handshake complete" otherwise — and, when a new keypair was
derived, mark "session derived", install it on the router and release every
evicted session id. -/
def peerUpdate {E : Type} (knownPeers evictedIds : List Nat) (pkOpt keypair : Option Nat) (msgLen respLen : Nat) (src : E) (s : DeviceState E) : DeviceState E :=
  match pkOpt with
  | none => s
  | some pk =>
    if pk ∈ knownPeers then
      let s2 := creditPeer pk msgLen respLen src s
      let s3 := if 0 < respLen then addMark pk TimerMark.sentHandshakeResponse s2 else addMark pk TimerMark.handshakeCompleted s2
      match keypair with
      | some kp => addInstall pk kp evictedIds (addMark pk TimerMark.sessionDerived s3)
      | none => s3
    else s

/-- The `HandshakeJob::Message` arm (workers.rs lines 179-261): a failed
`process` is only logged; otherwise send the reply (if any), then update the
peer (if authenticated). -/
def hsMessage {E : Type} (env : HsEnv) (msg : List Nat) (src : E) (s : DeviceState E) : DeviceState E :=
  match env.processResult with
  | none => s
  | some out =>
      peerUpdate env.knownPeers env.evictedIds out.pk out.keypair msg.length (respLenOf out.resp) src (sendReply env.writerPresent out.resp src s)

/-- The `HandshakeJob::New` arm (workers.rs lines 262-277): only when the
peer is known, `begin` a handshake; on success send the initiation via the
peer's router and mark "sent handshake initiation"; in either case clear the
peer's `handshake_queued` flag.  For an unknown peer nothing happens. -/
def hsNew {E : Type} (beginResult : Option (List Nat)) (knownPeers : List Nat) (pk : Nat) (s : DeviceState E) : DeviceState E :=
  if pk ∈ knownPeers then
    match beginResult with
    | some initMsg => clearQueued pk (addMark pk TimerMark.sentHandshakeInitiation (addRouterSend pk initMsg s))
    | none => clearQueued pk s
  else s

/-- One handshake-worker iteration (workers.rs lines 172-278): decrement
`pending` for the dequeued job — unconditionally, whatever the job — then
dispatch on the job kind. -/
def hsStep {E : Type} (env : HsEnv) (job : HandshakeJob E) (s0 : DeviceState E) : DeviceState E :=
  let s := { s0 with pending := fetchSub1 s0.pending }
  match job with
  | .Message msg src => hsMessage env msg src s
  | .New pk => hsNew env.beginResult env.knownPeers pk s

/-! ## Sequences of UDP-worker iterations (claims about the pending counter
and the under-load timestamp) -/

/-- Consecutive `udp_worker` iterations: feed a list of timestamped datagrams
`(arrival time, bytes, source)` through `udpStep`. -/
def udpRun {E : Type} (threshold mtu : Nat) (inputs : List (Int × List Nat × E)) (s : DeviceState E) : DeviceState E :=
  inputs.foldl (fun t i => udpStep threshold i.1 mtu i.2.1 i.2.2 t) s

/-- A datagram the UDP worker classifies as handshake traffic: at least four
bytes, and the little-endian type tag is cookie-reply, initiation or
response. -/
def isHandshakeMsg (msg : List Nat) : Prop :=
  4 ≤ msg.length ∧ (readU32LE msg = TYPE_COOKIE_REPLY ∨ readU32LE msg = TYPE_INITIATION ∨ readU32LE msg = TYPE_RESPONSE)

instance (msg : List Nat) : Decidable (isHandshakeMsg msg) := by
  unfold isHandshakeMsg
  infer_instance

/-- One handshake-worker dequeue: take the oldest job from the channel and
run `hsStep` on it (`for job in rx` in workers.rs line 172); with an empty
channel the worker blocks, modelled as no change. -/
def drainStep {E : Type} (env : HsEnv) (s : DeviceState E) : DeviceState E :=
  match s.queue with
  | [] => s
  | j :: rest => hsStep env j { s with queue := rest }

/-- `M` consecutive handshake-worker dequeues. -/
def drainRun {E : Type} (env : HsEnv) : Nat → DeviceState E → DeviceState E
  | 0, s => s
  | m + 1, s => drainRun env m (drainStep env s)

/-! ## `LinuxUDP::bind` and the writer (src/platform/linux/udp.rs)

`bind6`/`bind4` and `sendmsg` wrap syscalls, so their outcomes enter as
oracles: a bind oracle yields `(obtained port, socket descriptor)` or an
error, and the `sendmsg` oracle yields the syscall's return value given the
descriptor, the payload and the full endpoint (destination plus source
hint — `write4` marshals both into `msg_name` and the `IP_PKTINFO` control
header). -/

/-- `LinuxUDPReader` (udp.rs lines 53-56). -/
inductive LinuxUDPReader where
  | V4 : Int → LinuxUDPReader
  | V6 : Int → LinuxUDPReader
deriving DecidableEq, Repr

/-- `LinuxUDPWriter` (udp.rs lines 58-62): one raw descriptor per family. -/
structure LinuxUDPWriter where
  sock4 : Int
  sock6 : Int
deriving DecidableEq, Repr

/-- `LinuxOwner` (udp.rs lines 47-51). -/
structure LinuxOwner where
  port : Nat
  sock4 : Option Int
  sock6 : Option Int
deriving DecidableEq, Repr

/-- The port `LinuxUDP::bind` hands to `bind4` (udp.rs lines 538-541): when
the IPv6 bind succeeded, the port it actually obtained; otherwise the
caller's desired port. -/
def bindPort1 {Er : Type} (port : Nat) (r6 : Except Er (Nat × Int)) : Nat :=
  match r6 with
  | .ok p => p.1
  | .error _ => port

/-- `LinuxUDP::bind` (udp.rs lines 534-578).  `r6` is the outcome of
`Self::bind6(port)` — the IPv6 attempt on the desired port — and `r4 p` the
outcome of `Self::bind4(p)`; the IPv4 attempt runs on `bindPort1 port r6`.
If both attempts failed, the IPv6 error is returned.  Otherwise one reader
per bound family is produced (IPv6 first), the writer holds the bound
descriptors with `-1` for a missing family (`unwrap_or(-1)`), and the owner
keeps the optional descriptors and the final port. -/
def LinuxUDP.bind {Er : Type} (port : Nat) (r6 : Except Er (Nat × Int)) (r4 : Nat → Except Er (Nat × Int)) : Except Er (List LinuxUDPReader × LinuxUDPWriter × LinuxOwner) :=
  let port1 := bindPort1 port r6
  let b4 := r4 port1
  let port2 := match b4 with | .ok p => p.1 | .error _ => port1
  match b4, r6 with
  | .error _, .error e6 => .error e6
  | _, _ =>
    let sock6 := match r6 with | .ok p => some p.2 | .error _ => none
    let sock4 := match b4 with | .ok p => some p.2 | .error _ => none
    let readers := (match sock6 with | some fd => [LinuxUDPReader.V6 fd] | none => []) ++ (match sock4 with | some fd => [LinuxUDPReader.V4 fd] | none => [])
    .ok (readers, { sock4 := sock4.getD (-1), sock6 := sock6.getD (-1) }, { port := port2, sock4 := sock4, sock6 := sock6 })

/-- The outcome of one writer call.  `ok` and `ioError` mirror the `Result`;
`panicked` models `unimplemented!()` aborting the calling thread. -/
inductive WriteOutcome where
  | ok
  | ioError
  | panicked
deriving DecidableEq, Repr

/-- `LinuxUDPWriter::write4` (udp.rs lines 285-326): build the `IP_PKTINFO`
control header from the endpoint's source hint, point `msg_name` at the
endpoint's destination, and `sendmsg` the payload as one datagram on `fd`.
The iovec base is taken as `&buf[0]` (udp.rs line 299), which panics with an
out-of-bounds index on an empty payload before `sendmsg` is ever reached;
otherwise a negative syscall result becomes an I/O error and anything else
succeeds. -/
def LinuxUDPWriter.write4 (sendmsg : Int → List Nat → EndpointV4 → Int) (fd : Int) (buf : List Nat) (dst : EndpointV4) : WriteOutcome :=
  if buf = [] then .panicked
  else if sendmsg fd buf dst < 0 then .ioError else .ok

/-- `LinuxUDPWriter::write6` (udp.rs lines 279-283): the body is
`unimplemented!()` — every IPv6 send panics. -/
def LinuxUDPWriter.write6 (_fd : Int) (_buf : List Nat) (_dst : EndpointV6) : WriteOutcome :=
  .panicked

/-- `LinuxUDPWriter::write` (udp.rs lines 329-338): dispatch on the endpoint
family, with the family's socket descriptor. -/
def LinuxUDPWriter.write (sendmsg : Int → List Nat → EndpointV4 → Int) (w : LinuxUDPWriter) (buf : List Nat) (dst : LinuxEndpoint) : WriteOutcome :=
  match dst with
  | .V4 e => LinuxUDPWriter.write4 sendmsg w.sock4 buf e
  | .V6 e => LinuxUDPWriter.write6 w.sock6 buf e

/-! ## Theorems -/

theorem rustMin_eq_min (a b : Nat) : rustMin a b = min a b := by
  unfold rustMin
  split <;> simp <;> omega

theorem padding_eq_min (size mtu : Nat) :
    padding size mtu =
      min mtu ((size + (16 - size % 16) % 16) % USIZE) := by
  unfold padding MESSAGE_PADDING_MULTIPLE
  rw [rustMin_eq_min]

/-- The rounded value computed inside `padding` is always a multiple of 16:
either the addition does not wrap and it is the next multiple of 16, or it
wraps past `2^64` (itself a multiple of 16) to exactly 0. -/
theorem padding_round_multiple (size : Nat) :
    (size + (16 - size % 16) % 16) % USIZE % 16 = 0 := by
  unfold USIZE
  omega

/-- CLAIM C1, counterexample.  At `size = mtu = 2^64 - 1` the `usize` round-up
inside `padding` wraps to 0, so `padding size mtu = 0 < size`: the claimed
lower bound `size ≤ padding size mtu` fails. -/
theorem padding_claim_counterexample :
    padding (2 ^ 64 - 1) (2 ^ 64 - 1) = 0 ∧
      ¬(2 ^ 64 - 1 ≤ padding (2 ^ 64 - 1) (2 ^ 64 - 1)) := by
  constructor
  · rfl
  · intro h
    rw [show padding (2 ^ 64 - 1) (2 ^ 64 - 1) = 0 from rfl] at h
    omega

/-- CLAIM C1, amended.  For `usize` inputs `size ≤ mtu`:
the result never exceeds `mtu`; it equals `mtu` or is a multiple of
`MESSAGE_PADDING_MULTIPLE`; the lower bound `size ≤ padding size mtu`
holds whenever the round-up cannot wrap (`size ≤ 2^64 - 16`); and `padding`
is idempotent in its first argument unconditionally. -/
theorem padding_spec (size mtu : Nat) (hmtu : mtu < USIZE) (h : size ≤ mtu) :
    padding size mtu ≤ mtu ∧
      (padding size mtu = mtu ∨ padding size mtu % MESSAGE_PADDING_MULTIPLE = 0) ∧
      (size ≤ USIZE - 16 → size ≤ padding size mtu) ∧
      padding (padding size mtu) mtu = padding size mtu := by
  have hround := padding_round_multiple size
  have hroundlt : (size + (16 - size % 16) % 16) % USIZE < USIZE := by
    unfold USIZE
    omega
  rw [padding_eq_min]
  set v := (size + (16 - size % 16) % 16) % USIZE with hv
  refine ⟨Nat.min_le_left _ _, ?_, ?_, ?_⟩
  · rcases Nat.le_total v mtu with hvm | hvm
    · right
      rw [Nat.min_eq_right hvm]
      exact hround
    · left
      exact Nat.min_eq_left hvm
  · intro hno
    have hnowrap : size + (16 - size % 16) % 16 < USIZE := by
      unfold USIZE at hno ⊢
      omega
    have : v = size + (16 - size % 16) % 16 := by
      rw [hv, Nat.mod_eq_of_lt hnowrap]
    omega
  · rcases Nat.le_total v mtu with hvm | hvm
    · -- the round-up fits below the MTU: the result is the multiple itself
      rw [Nat.min_eq_right hvm, padding_eq_min]
      have hv16 : v % 16 = 0 := hround
      have : (v + (16 - v % 16) % 16) % USIZE = v := by
        unfold USIZE at hroundlt ⊢
        omega
      rw [this]
      exact Nat.min_eq_right hvm
    · -- the round-up exceeded the MTU: the result is the MTU itself
      rw [Nat.min_eq_left hvm, padding_eq_min]
      have hv16 : v % 16 = 0 := hround
      have : mtu ≤ (mtu + (16 - mtu % 16) % 16) % USIZE := by
        unfold USIZE at hroundlt hmtu ⊢
        omega
      exact Nat.min_eq_left this

/-- Witness for `padding_spec` at `size = 100`, `mtu = 1500`. -/
theorem padding_spec_witness :
    padding 100 1500 ≤ 1500 ∧
      (padding 100 1500 = 1500 ∨ padding 100 1500 % MESSAGE_PADDING_MULTIPLE = 0) ∧
      (100 ≤ USIZE - 16 → 100 ≤ padding 100 1500) ∧
      padding (padding 100 1500) 1500 = padding 100 1500 :=
  padding_spec 100 1500 (by decide) (by decide)

/-- `clear_src` only touches the source hint, so `into_address` is unchanged
by it (this half of property 2 does hold). -/
theorem into_address_clear_src (e : LinuxEndpoint) :
    into_address (clear_src e) = into_address e := by
  cases e <;> rfl

/-- CLAIM C2: evaluation at the failing input.  On a little-endian target the
round trip `into_address ∘ from_address` byte-swaps an IPv4 address
(1.2.3.4 = 0x01020304 comes back as 4.3.2.1 = 0x04030201) and byte-reverses
the sixteen octets of an IPv6 address (::1 comes back as 100::), because
`from_address` stores the IPv4 address in network byte order while
`into_address` reads it back without `from_be`, and the IPv6 read path
composes a little-endian load with a big-endian extraction. -/
theorem endpoint_roundtrip_counterexample :
    into_address (from_address (.V4 { ip := 16909060, port := 80 })) =
        .V4 { ip := 67305985, port := 80 } ∧
      into_address (from_address (.V4 { ip := 16909060, port := 80 })) ≠
        .V4 { ip := 16909060, port := 80 } ∧
      into_address (from_address (.V6 { ip := [0, 0, 0, 0, 0, 0, 0, 0, 0, 0, 0, 0, 0, 0, 0, 1], port := 443, flowinfo := 0, scopeId := 0 })) =
        .V6 { ip := [1, 0, 0, 0, 0, 0, 0, 0, 0, 0, 0, 0, 0, 0, 0, 0], port := 443, flowinfo := 0, scopeId := 0 } := by
  refine ⟨by decide, by decide, by decide⟩

/-- CLAIM C3: with a non-zero MTU, a datagram shorter than 4 bytes is dropped
with no state change; otherwise the first four bytes read as a little-endian
u32 select the path: a handshake tag increments the shared pending counter by
one and appends `HandshakeJob::Message(msg, src)` to the queue without calling
the router; the transport tag calls `router.recv(src, msg)` and changes
nothing else; any other tag leaves the state untouched. -/
theorem udp_worker_demux {E : Type} (threshold : Nat) (now : Int) (mtu : Nat)
    (msg : List Nat) (src : E) (s : DeviceState E)
    (hmtu : mtu ≠ 0) (hp : s.pending + 1 < USIZE) :
    (msg.length < 4 → udpStep threshold now mtu msg src s = s) ∧
      (4 ≤ msg.length →
        (readU32LE msg = TYPE_INITIATION ∨ readU32LE msg = TYPE_RESPONSE ∨ readU32LE msg = TYPE_COOKIE_REPLY) →
        (udpStep threshold now mtu msg src s).pending = s.pending + 1 ∧
          (udpStep threshold now mtu msg src s).queue = s.queue ++ [HandshakeJob.Message msg src] ∧
          (udpStep threshold now mtu msg src s).routerRecv = s.routerRecv) ∧
      (4 ≤ msg.length → readU32LE msg = TYPE_TRANSPORT →
        udpStep threshold now mtu msg src s = { s with routerRecv := s.routerRecv ++ [(src, msg)] }) ∧
      (4 ≤ msg.length → readU32LE msg ≠ TYPE_INITIATION → readU32LE msg ≠ TYPE_RESPONSE →
        readU32LE msg ≠ TYPE_COOKIE_REPLY → readU32LE msg ≠ TYPE_TRANSPORT →
        udpStep threshold now mtu msg src s = s) := by
  refine ⟨?_, ?_, ?_, ?_⟩
  · intro hlen
    unfold udpStep
    rw [if_neg hmtu, if_pos hlen]
  · intro hlen htype
    have hc : readU32LE msg = TYPE_COOKIE_REPLY ∨ readU32LE msg = TYPE_INITIATION ∨ readU32LE msg = TYPE_RESPONSE := by
      tauto
    unfold udpStep
    rw [if_neg hmtu, if_neg (Nat.not_lt.mpr hlen), if_pos hc]
    refine ⟨?_, rfl, rfl⟩
    exact Nat.mod_eq_of_lt hp
  · intro hlen htype
    have hc : ¬(readU32LE msg = TYPE_COOKIE_REPLY ∨ readU32LE msg = TYPE_INITIATION ∨ readU32LE msg = TYPE_RESPONSE) := by
      unfold TYPE_COOKIE_REPLY TYPE_INITIATION TYPE_RESPONSE
      unfold TYPE_TRANSPORT at htype
      omega
    unfold udpStep
    rw [if_neg hmtu, if_neg (Nat.not_lt.mpr hlen), if_neg hc, if_pos htype]
  · intro hlen h1 h2 h3 h4
    have hc : ¬(readU32LE msg = TYPE_COOKIE_REPLY ∨ readU32LE msg = TYPE_INITIATION ∨ readU32LE msg = TYPE_RESPONSE) := by
      tauto
    unfold udpStep
    rw [if_neg hmtu, if_neg (Nat.not_lt.mpr hlen), if_neg hc, if_neg h4]

/-- Witness for `udp_worker_demux`: a concrete device, an initiation
datagram, a transport datagram and an unknown tag behave as stated. -/
theorem udp_worker_demux_witness :
    (udpStep 4 100 1420 [1, 0, 0, 0] (0 : Nat) (initState 0)).pending = 1 ∧
      (udpStep 4 100 1420 [4, 0, 0, 0] (0 : Nat) (initState 0)).routerRecv = [(0, [4, 0, 0, 0])] ∧
      udpStep 4 100 1420 [9, 0, 0, 0] (0 : Nat) (initState 0) = initState 0 := by
  have h1 := (udp_worker_demux 4 100 1420 [1, 0, 0, 0] (0 : Nat) (initState 0) (by decide) (by decide)).2.1 (by decide) (by decide)
  have h2 := (udp_worker_demux 4 100 1420 [4, 0, 0, 0] (0 : Nat) (initState 0) (by decide) (by decide)).2.2.1 (by decide) (by decide)
  have h3 := (udp_worker_demux 4 100 1420 [9, 0, 0, 0] (0 : Nat) (initState 0) (by decide) (by decide)).2.2.2 (by decide) (by decide) (by decide) (by decide) (by decide)
  refine ⟨h1.1, ?_, h3⟩
  rw [h2]
  rfl

@[simp] theorem addWritten_marks {E : Type} (r : List Nat) (src : E) (s : DeviceState E) :
    (addWritten r src s).marks = s.marks := rfl

@[simp] theorem creditPeer_marks {E : Type} (pk a b : Nat) (src : E) (s : DeviceState E) :
    (creditPeer pk a b src s).marks = s.marks := rfl

@[simp] theorem addMark_marks {E : Type} (pk : Nat) (m : TimerMark) (s : DeviceState E) :
    (addMark pk m s).marks = s.marks ++ [(pk, m)] := rfl

@[simp] theorem addInstall_marks {E : Type} (pk kp : Nat) (ids : List Nat) (s : DeviceState E) :
    (addInstall pk kp ids s).marks = s.marks := rfl

@[simp] theorem addWritten_written {E : Type} (r : List Nat) (src : E) (s : DeviceState E) :
    (addWritten r src s).written = s.written ++ [(r, src)] := rfl

@[simp] theorem creditPeer_written {E : Type} (pk a b : Nat) (src : E) (s : DeviceState E) :
    (creditPeer pk a b src s).written = s.written := rfl

@[simp] theorem addMark_written {E : Type} (pk : Nat) (m : TimerMark) (s : DeviceState E) :
    (addMark pk m s).written = s.written := rfl

@[simp] theorem addInstall_written {E : Type} (pk kp : Nat) (ids : List Nat) (s : DeviceState E) :
    (addInstall pk kp ids s).written = s.written := rfl

@[simp] theorem addWritten_pending {E : Type} (r : List Nat) (src : E) (s : DeviceState E) :
    (addWritten r src s).pending = s.pending := rfl

@[simp] theorem creditPeer_pending {E : Type} (pk a b : Nat) (src : E) (s : DeviceState E) :
    (creditPeer pk a b src s).pending = s.pending := rfl

@[simp] theorem addMark_pending {E : Type} (pk : Nat) (m : TimerMark) (s : DeviceState E) :
    (addMark pk m s).pending = s.pending := rfl

@[simp] theorem addInstall_pending {E : Type} (pk kp : Nat) (ids : List Nat) (s : DeviceState E) :
    (addInstall pk kp ids s).pending = s.pending := rfl

@[simp] theorem addRouterSend_pending {E : Type} (pk : Nat) (m : List Nat) (s : DeviceState E) :
    (addRouterSend pk m s).pending = s.pending := rfl

@[simp] theorem clearQueued_pending {E : Type} (pk : Nat) (s : DeviceState E) :
    (clearQueued pk s).pending = s.pending := rfl

@[simp] theorem addWritten_queue {E : Type} (r : List Nat) (src : E) (s : DeviceState E) :
    (addWritten r src s).queue = s.queue := rfl

@[simp] theorem creditPeer_queue {E : Type} (pk a b : Nat) (src : E) (s : DeviceState E) :
    (creditPeer pk a b src s).queue = s.queue := rfl

@[simp] theorem addMark_queue {E : Type} (pk : Nat) (m : TimerMark) (s : DeviceState E) :
    (addMark pk m s).queue = s.queue := rfl

@[simp] theorem addInstall_queue {E : Type} (pk kp : Nat) (ids : List Nat) (s : DeviceState E) :
    (addInstall pk kp ids s).queue = s.queue := rfl

@[simp] theorem addRouterSend_queue {E : Type} (pk : Nat) (m : List Nat) (s : DeviceState E) :
    (addRouterSend pk m s).queue = s.queue := rfl

@[simp] theorem clearQueued_queue {E : Type} (pk : Nat) (s : DeviceState E) :
    (clearQueued pk s).queue = s.queue := rfl

@[simp] theorem sendReply_pending {E : Type} (p : Bool) (resp : Option (List Nat)) (src : E) (s : DeviceState E) :
    (sendReply p resp src s).pending = s.pending := by
  unfold sendReply
  (repeat' split) <;> rfl

@[simp] theorem sendReply_queue {E : Type} (p : Bool) (resp : Option (List Nat)) (src : E) (s : DeviceState E) :
    (sendReply p resp src s).queue = s.queue := by
  unfold sendReply
  (repeat' split) <;> rfl

@[simp] theorem sendReply_marks {E : Type} (p : Bool) (resp : Option (List Nat)) (src : E) (s : DeviceState E) :
    (sendReply p resp src s).marks = s.marks := by
  unfold sendReply
  (repeat' split) <;> rfl

@[simp] theorem peerUpdate_pending {E : Type} (kp ids : List Nat) (pkOpt keypair : Option Nat) (ml rl : Nat) (src : E) (s : DeviceState E) :
    (peerUpdate kp ids pkOpt keypair ml rl src s).pending = s.pending := by
  unfold peerUpdate
  (repeat' split) <;> rfl

@[simp] theorem peerUpdate_queue {E : Type} (kp ids : List Nat) (pkOpt keypair : Option Nat) (ml rl : Nat) (src : E) (s : DeviceState E) :
    (peerUpdate kp ids pkOpt keypair ml rl src s).queue = s.queue := by
  unfold peerUpdate
  (repeat' split) <;> rfl

@[simp] theorem hsNew_pending {E : Type} (b : Option (List Nat)) (kp : List Nat) (pk : Nat) (s : DeviceState E) :
    (hsNew b kp pk s).pending = s.pending := by
  unfold hsNew
  (repeat' split) <;> rfl

@[simp] theorem hsNew_queue {E : Type} (b : Option (List Nat)) (kp : List Nat) (pk : Nat) (s : DeviceState E) :
    (hsNew b kp pk s).queue = s.queue := by
  unfold hsNew
  (repeat' split) <;> rfl

@[simp] theorem hsMessage_pending {E : Type} (env : HsEnv) (msg : List Nat) (src : E) (s : DeviceState E) :
    (hsMessage env msg src s).pending = s.pending := by
  unfold hsMessage
  (repeat' split) <;> simp [peerUpdate_pending, peerUpdate_queue, sendReply_pending, sendReply_queue]

@[simp] theorem hsMessage_queue {E : Type} (env : HsEnv) (msg : List Nat) (src : E) (s : DeviceState E) :
    (hsMessage env msg src s).queue = s.queue := by
  unfold hsMessage
  (repeat' split) <;> simp [peerUpdate_pending, peerUpdate_queue, sendReply_pending, sendReply_queue]

/-- Every dequeued job decrements the pending counter exactly once,
whatever the job and whatever the oracles say. -/
theorem hsStep_pending {E : Type} (env : HsEnv) (job : HandshakeJob E) (s : DeviceState E) :
    (hsStep env job s).pending = fetchSub1 s.pending := by
  unfold hsStep
  cases job <;> simp

/-- The handshake worker never touches the handshake channel itself. -/
theorem hsStep_queue {E : Type} (env : HsEnv) (job : HandshakeJob E) (s : DeviceState E) :
    (hsStep env job s).queue = s.queue := by
  unfold hsStep
  cases job <;> simp

/-- CLAIM C9, counterexample.  Dequeuing `HandshakeJob::New(pk)` for an
unknown peer does *not* leave the pending counter unchanged: the worker's
unconditional per-job `fetch_sub(1)` (workers.rs line 175) runs before the
peer lookup, so a device with 5 pending jobs drops to 4. -/
theorem handshake_new_unknown_counterexample :
    (hsStep { processResult := none, beginResult := none, writerPresent := false, knownPeers := [], evictedIds := [] } (HandshakeJob.New 3) { (initState 0 : DeviceState Unit) with pending := 5 }).pending = 4 ∧ (5 : Nat) ≠ 4 := by
  refine ⟨by decide, by decide⟩

/-- CLAIM C9, amended.  Dequeuing `HandshakeJob::New(pk)` for a public key
absent from the peer table does not crash (the step is a total function),
sends nothing, and makes no state change at all other than the unconditional
one-per-job decrement of the pending counter. -/
theorem handshake_new_unknown {E : Type} (env : HsEnv) (pk : Nat) (s : DeviceState E)
    (h : pk ∉ env.knownPeers) :
    hsStep env (HandshakeJob.New pk) s = { s with pending := fetchSub1 s.pending } := by
  unfold hsStep hsNew
  simp [h]

/-- Witness for `handshake_new_unknown`: peer 3 against a table holding only
peer 7. -/
theorem handshake_new_unknown_witness :
    hsStep { processResult := none, beginResult := none, writerPresent := false, knownPeers := [7], evictedIds := [] } (HandshakeJob.New 3) (initState (0 : Int) : DeviceState Unit) = { (initState 0 : DeviceState Unit) with pending := fetchSub1 0 } :=
  handshake_new_unknown _ 3 _ (by decide)

/-- CLAIM C8, counterexample.  The timer mark does not depend on whether the
reply was actually transmitted: with the writer slot empty
(`writerPresent = false`) nothing is sent, yet because the engine produced a
non-empty reply (`resp_len > 0`) the peer is still marked "sent handshake
response" rather than "handshake complete". -/
theorem handshake_mark_counterexample :
    (hsStep { processResult := some { pk := some 7, resp := some [1, 2, 3], keypair := none }, beginResult := none, writerPresent := false, knownPeers := [7], evictedIds := [] } (HandshakeJob.Message [2, 0, 0, 0] ()) (initState 0 : DeviceState Unit)).written = [] ∧
      (hsStep { processResult := some { pk := some 7, resp := some [1, 2, 3], keypair := none }, beginResult := none, writerPresent := false, knownPeers := [7], evictedIds := [] } (HandshakeJob.Message [2, 0, 0, 0] ()) (initState 0 : DeviceState Unit)).marks = [(7, TimerMark.sentHandshakeResponse)] := by
  refine ⟨by decide, by decide⟩

theorem hsStep_message {E : Type} (env : HsEnv) (msg : List Nat) (src : E) (s : DeviceState E) :
    hsStep env (HandshakeJob.Message msg src) s = hsMessage env msg src { s with pending := fetchSub1 s.pending } := rfl

theorem hsMessage_process_some {E : Type} (env : HsEnv) (msg : List Nat) (src : E) (s : DeviceState E) (out : ProcessOutput)
    (hres : env.processResult = some out) :
    hsMessage env msg src s = peerUpdate env.knownPeers env.evictedIds out.pk out.keypair msg.length (respLenOf out.resp) src (sendReply env.writerPresent out.resp src s) := by
  unfold hsMessage
  rw [hres]

theorem peerUpdate_marks_known {E : Type} (kp ids : List Nat) (keypair : Option Nat) (pk ml rl : Nat) (src : E) (s : DeviceState E)
    (hknown : pk ∈ kp) :
    (peerUpdate kp ids (some pk) keypair ml rl src s).marks =
      s.marks ++ [(pk, if 0 < rl then TimerMark.sentHandshakeResponse else TimerMark.handshakeCompleted)] ++
        (match keypair with | some _ => [(pk, TimerMark.sessionDerived)] | none => []) := by
  unfold peerUpdate
  dsimp only
  rw [if_pos hknown]
  cases keypair <;> by_cases h : 0 < rl <;> simp [h]

/-- CLAIM C8, amended.  When `process` succeeds with a peer public key that is
in the peer table, the timer mark is chosen by whether the engine produced a
non-empty reply (`resp_len > 0`), independently of whether that reply was
actually transmitted: a non-empty reply marks "sent handshake response" even
if no writer is installed, and an absent reply marks "handshake complete";
a new keypair additionally appends the "session derived" mark. -/
theorem handshake_mark_by_reply {E : Type} (env : HsEnv) (msg : List Nat) (src : E)
    (s : DeviceState E) (out : ProcessOutput) (pk : Nat)
    (hres : env.processResult = some out) (hpk : out.pk = some pk)
    (hknown : pk ∈ env.knownPeers) :
    ((∃ r, out.resp = some r ∧ r ≠ []) →
        (hsStep env (HandshakeJob.Message msg src) s).marks =
          s.marks ++ [(pk, TimerMark.sentHandshakeResponse)] ++
            (match out.keypair with | some _ => [(pk, TimerMark.sessionDerived)] | none => [])) ∧
      (out.resp = none →
        (hsStep env (HandshakeJob.Message msg src) s).marks =
          s.marks ++ [(pk, TimerMark.handshakeCompleted)] ++
            (match out.keypair with | some _ => [(pk, TimerMark.sessionDerived)] | none => [])) := by
  obtain ⟨opk, oresp, okp⟩ := out
  simp only at hpk
  subst hpk
  constructor
  · rintro ⟨r, hr, hrne⟩
    simp only at hr
    subst hr
    have hlen : 0 < r.length := List.length_pos.mpr hrne
    rw [hsStep_message, hsMessage_process_some _ _ _ _ _ hres]
    dsimp only
    rw [peerUpdate_marks_known _ _ _ _ _ _ _ _ hknown]
    simp only [respLenOf, sendReply_marks, if_pos hlen]
    try rfl
  · intro hr
    simp only at hr
    subst hr
    rw [hsStep_message, hsMessage_process_some _ _ _ _ _ hres]
    dsimp only
    rw [peerUpdate_marks_known _ _ _ _ _ _ _ _ hknown]
    simp only [respLenOf, sendReply_marks]
    try rfl

/-- Witness for `handshake_mark_by_reply`: peer 7, a two-byte reply, a fresh
keypair, writer present. -/
theorem handshake_mark_by_reply_witness :
    (hsStep { processResult := some { pk := some 7, resp := some [9, 9], keypair := some 11 }, beginResult := none, writerPresent := true, knownPeers := [7], evictedIds := [1, 2] } (HandshakeJob.Message [2, 0, 0, 0] ()) (initState 0 : DeviceState Unit)).marks = [(7, TimerMark.sentHandshakeResponse), (7, TimerMark.sessionDerived)] := by
  have h := (handshake_mark_by_reply { processResult := some { pk := some 7, resp := some [9, 9], keypair := some 11 }, beginResult := none, writerPresent := true, knownPeers := [7], evictedIds := [1, 2] } [2, 0, 0, 0] () (initState 0 : DeviceState Unit) { pk := some 7, resp := some [9, 9], keypair := some 11 } 7 rfl rfl (by decide)).1 ⟨[9, 9], rfl, by decide⟩
  simpa using h

/-- What one `udp_worker` iteration does to a handshake datagram (device up):
add one to pending, enqueue the job, and refresh `last_under_load` exactly
when the `fetch_add` return value — the counter's previous value — exceeded
the threshold. -/
theorem udpStep_handshake {E : Type} (threshold : Nat) (now : Int) (mtu : Nat) (msg : List Nat) (src : E) (s : DeviceState E)
    (hmtu : mtu ≠ 0) (hmsg : isHandshakeMsg msg) :
    udpStep threshold now mtu msg src s = { s with pending := (s.pending + 1) % USIZE, lastUnderLoad := if threshold < s.pending then now else s.lastUnderLoad, queue := s.queue ++ [HandshakeJob.Message msg src] } := by
  obtain ⟨hlen, htype⟩ := hmsg
  unfold udpStep
  rw [if_neg hmtu, if_neg (Nat.not_lt.mpr hlen), if_pos htype]

/-- Feeding only handshake datagrams (device up, no counter overflow): the
pending counter grows by exactly one per datagram and the queue gains exactly
the corresponding `Message` jobs, in arrival order. -/
theorem udpRun_handshake {E : Type} (threshold mtu : Nat) (inputs : List (Int × List Nat × E)) (s : DeviceState E)
    (hmtu : mtu ≠ 0) (hall : ∀ i ∈ inputs, isHandshakeMsg i.2.1) (hb : s.pending + inputs.length < USIZE) :
    (udpRun threshold mtu inputs s).pending = s.pending + inputs.length ∧
      (udpRun threshold mtu inputs s).queue = s.queue ++ inputs.map (fun i => HandshakeJob.Message i.2.1 i.2.2) := by
  induction inputs generalizing s with
  | nil => simp [udpRun]
  | cons x xs ih =>
    have hx : isHandshakeMsg x.2.1 := hall x (by simp)
    have hxs : ∀ i ∈ xs, isHandshakeMsg i.2.1 := fun i hi => hall i (by simp [hi])
    have hpend : (s.pending + 1) % USIZE = s.pending + 1 := by
      apply Nat.mod_eq_of_lt
      simp at hb
      omega
    have hcons : udpRun threshold mtu (x :: xs) s = udpRun threshold mtu xs (udpStep threshold x.1 mtu x.2.1 x.2.2 s) := rfl
    rw [hcons, udpStep_handshake threshold x.1 mtu x.2.1 x.2.2 s hmtu hx, hpend]
    have ih' := ih { s with pending := s.pending + 1, lastUnderLoad := if threshold < s.pending then x.1 else s.lastUnderLoad, queue := s.queue ++ [HandshakeJob.Message x.2.1 x.2.2] } hxs (by simp at hb ⊢; omega)
    obtain ⟨ihp, ihq⟩ := ih'
    constructor
    · rw [ihp]
      simp
      omega
    · rw [ihq]
      simp [List.append_assoc]

theorem fetchSub1_eq (p : Nat) (h1 : 1 ≤ p) (h2 : p < USIZE) : fetchSub1 p = p - 1 := by
  unfold fetchSub1 USIZE
  unfold USIZE at h2
  omega

/-- Draining `M` jobs from a device whose pending counter matches its queue
depth: each dequeue decrements pending exactly once and consumes exactly one
job. -/
theorem drainRun_pending {E : Type} (env : HsEnv) (M : Nat) (s : DeviceState E)
    (hM : M ≤ s.queue.length) (hpq : s.pending = s.queue.length) (hlt : s.pending < USIZE) :
    (drainRun env M s).pending = s.pending - M ∧ (drainRun env M s).queue.length = s.queue.length - M := by
  induction M generalizing s with
  | zero => simp [drainRun]
  | succ m ih =>
    cases hq : s.queue with
    | nil =>
      rw [hq] at hM
      simp at hM
    | cons j rest =>
      rw [hq] at hM hpq
      simp only [List.length_cons] at hM hpq
      have hstep : drainStep env s = hsStep env j { s with queue := rest } := by
        unfold drainStep
        rw [hq]
      have hp : (hsStep env j { s with queue := rest }).pending = fetchSub1 s.pending :=
        hsStep_pending env j { s with queue := rest }
      have hqq : (hsStep env j { s with queue := rest }).queue = rest :=
        hsStep_queue env j { s with queue := rest }
      have h1 : 1 ≤ s.pending := by omega
      have hsub : fetchSub1 s.pending = s.pending - 1 := fetchSub1_eq s.pending h1 hlt
      have hrun : drainRun env (m + 1) s = drainRun env m (drainStep env s) := rfl
      have ih' := ih (hsStep env j { s with queue := rest }) (by rw [hqq]; omega) (by rw [hp, hqq, hsub]; omega) (by rw [hp, hsub]; omega)
      rw [hrun, hstep]
      obtain ⟨ihp, ihq⟩ := ih'
      rw [hp, hsub] at ihp
      rw [hqq] at ihq
      constructor
      · rw [ihp]
        omega
      · rw [ihq]
        simp only [List.length_cons]
        omega

/-- CLAIM C5: pending-counter balance.  Starting from a fresh device, a
stream of `N` handshake datagrams (device up, `N` within the counter's
range) leaves the pending counter at exactly `N`; draining `M ≤ N` jobs
through handshake workers then leaves it at exactly `N - M`.  Each accepted
handshake datagram increments pending exactly once (`udpStep_handshake`) and
each dequeued job decrements it exactly once (`hsStep_pending`). -/
theorem pending_counter_balance {E : Type} (threshold mtu : Nat) (t0 : Int) (inputs : List (Int × List Nat × E)) (M : Nat) (env : HsEnv)
    (hmtu : mtu ≠ 0) (hall : ∀ i ∈ inputs, isHandshakeMsg i.2.1) (hN : inputs.length < USIZE) (hM : M ≤ inputs.length) :
    (udpRun threshold mtu inputs (initState t0)).pending = inputs.length ∧
      (drainRun env M (udpRun threshold mtu inputs (initState t0))).pending = inputs.length - M := by
  have h0p : (initState t0 : DeviceState E).pending = 0 := rfl
  have hrun := udpRun_handshake threshold mtu inputs (initState t0) hmtu hall (by rw [h0p]; omega)
  obtain ⟨hrp, hrq⟩ := hrun
  rw [h0p, Nat.zero_add] at hrp
  have hrql : (udpRun threshold mtu inputs (initState t0)).queue.length = inputs.length := by
    rw [hrq]
    simp [initState]
  have hdrain := drainRun_pending env M (udpRun threshold mtu inputs (initState t0)) (by rw [hrql]; exact hM) (by rw [hrp, hrql]) (by rw [hrp]; exact hN)
  exact ⟨hrp, by rw [hdrain.1, hrp]⟩

/-- Witness for `pending_counter_balance`: three initiation datagrams, two
drained. -/
theorem pending_counter_balance_witness :
    (udpRun 4 1420 [((1 : Int), [1, 0, 0, 0], ()), (2, [1, 0, 0, 0], ()), (3, [1, 0, 0, 0], ())] (initState 0 : DeviceState Unit)).pending = 3 ∧
      (drainRun { processResult := none, beginResult := none, writerPresent := false, knownPeers := [], evictedIds := [] } 2 (udpRun 4 1420 [((1 : Int), [1, 0, 0, 0], ()), (2, [1, 0, 0, 0], ()), (3, [1, 0, 0, 0], ())] (initState 0 : DeviceState Unit))).pending = 1 :=
  pending_counter_balance 4 1420 0 _ 2 _ (by decide) (by decide) (by decide) (by decide)

/-- CLAIM C6, counterexample.  With `THRESHOLD_UNDER_LOAD = 2`, sending
`THRESHOLD_UNDER_LOAD + 1 = 3` initiation datagrams (times 10, 20, 30) to a
fresh device with no drain does *not* refresh `last_under_load`: the check
compares the `fetch_add` return value — the counter's *previous* value, which
is at most `THRESHOLD_UNDER_LOAD` during the first
`THRESHOLD_UNDER_LOAD + 1` datagrams — so the timestamp keeps its initial
far-in-the-past value `-100` instead of the most recent arrival time 30. -/
theorem under_load_counterexample :
    (udpRun 2 1420 [((10 : Int), [1, 0, 0, 0], ()), (20, [1, 0, 0, 0], ()), (30, [1, 0, 0, 0], ())] (initState (-100) : DeviceState Unit)).lastUnderLoad = -100 ∧
      ((-100 : Int) ≠ 30) := by
  refine ⟨by decide, by decide⟩

/-- CLAIM C6, amended.  `last_under_load` is refreshed to the arrival time of
a handshake datagram exactly when the pending counter's previous value
exceeds the threshold; with zero drain that first happens on datagram number
`THRESHOLD_UNDER_LOAD + 2`, not `THRESHOLD_UNDER_LOAD + 1`.  Stated
generally: after a run of handshake datagrams which together with the
starting pending count exceed the threshold, one more handshake datagram
arriving at time `t` sets `last_under_load = t`. -/
theorem under_load_trigger {E : Type} (threshold mtu : Nat) (pre : List (Int × List Nat × E)) (t : Int) (msg : List Nat) (src : E) (s : DeviceState E)
    (hmtu : mtu ≠ 0) (hall : ∀ i ∈ pre, isHandshakeMsg i.2.1) (hmsg : isHandshakeMsg msg)
    (hb : s.pending + pre.length < USIZE) (htrig : threshold < s.pending + pre.length) :
    (udpRun threshold mtu (pre ++ [(t, msg, src)]) s).lastUnderLoad = t := by
  have happ : udpRun threshold mtu (pre ++ [(t, msg, src)]) s = udpStep threshold t mtu msg src (udpRun threshold mtu pre s) := by
    unfold udpRun
    rw [List.foldl_append]
    rfl
  have hrun := (udpRun_handshake threshold mtu pre s hmtu hall hb).1
  rw [happ, udpStep_handshake threshold t mtu msg src _ hmtu hmsg]
  dsimp only
  rw [hrun, if_pos htrig]

/-- Witness for `under_load_trigger`: threshold 1, two initiations queued,
the third (time 99) triggers the refresh. -/
theorem under_load_trigger_witness :
    (udpRun 1 1420 ([((1 : Int), [1, 0, 0, 0], ()), (2, [1, 0, 0, 0], ())] ++ [((99 : Int), [1, 0, 0, 0], ())]) (initState (-100) : DeviceState Unit)).lastUnderLoad = 99 :=
  under_load_trigger 1 1420 [((1 : Int), [1, 0, 0, 0], ()), (2, [1, 0, 0, 0], ())] 99 [1, 0, 0, 0] () (initState (-100)) (by decide) (by decide) (by decide) (by decide) (by decide)

/-- CLAIM C4: `bind` first attempts IPv6 on the desired port (by
construction `r6` is that attempt's outcome); when IPv6 succeeded the IPv4
attempt runs on the port IPv6 obtained; the call succeeds whenever at least
one family bound, yielding exactly one reader per bound family (IPv6 reader
first); and when both fail it returns the IPv6 attempt's error. -/
theorem LinuxUDP_bind_spec {Er : Type} (port : Nat) (r6 : Except Er (Nat × Int)) (r4 : Nat → Except Er (Nat × Int)) :
    (∀ p6 fd6, r6 = .ok (p6, fd6) → bindPort1 port r6 = p6) ∧
      (∀ e6 e4, r6 = .error e6 → r4 port = .error e4 → LinuxUDP.bind port r6 r4 = .error e6) ∧
      ((r6.isOk = true ∨ (r4 (bindPort1 port r6)).isOk = true) →
        LinuxUDP.bind port r6 r4 = .ok ((match r6 with | .ok p => [LinuxUDPReader.V6 p.2] | .error _ => []) ++ (match r4 (bindPort1 port r6) with | .ok p => [LinuxUDPReader.V4 p.2] | .error _ => []), { sock4 := match r4 (bindPort1 port r6) with | .ok p => p.2 | .error _ => -1, sock6 := match r6 with | .ok p => p.2 | .error _ => -1 }, { port := match r4 (bindPort1 port r6) with | .ok p => p.1 | .error _ => bindPort1 port r6, sock4 := match r4 (bindPort1 port r6) with | .ok p => some p.2 | .error _ => none, sock6 := match r6 with | .ok p => some p.2 | .error _ => none })) := by
  refine ⟨?_, ?_, ?_⟩
  · intro p6 fd6 h
    rw [h]
    rfl
  · intro e6 e4 h6 h4
    simp [LinuxUDP.bind, bindPort1, h6, h4]
  · intro hok
    cases h6 : r6 with
    | ok p6 =>
      cases h4 : r4 (bindPort1 port (Except.ok p6)) with
      | ok p4 => simp [LinuxUDP.bind, h4]
      | error e4 => simp [LinuxUDP.bind, h4]
    | error e6 =>
      cases h4 : r4 (bindPort1 port (Except.error e6)) with
      | ok p4 => simp [LinuxUDP.bind, h4]
      | error e4 =>
        rw [h6] at hok
        rw [h4] at hok
        simp [Except.isOk, Except.toBool] at hok

/-- Witness for `LinuxUDP_bind_spec`: a dual-stack success (IPv6 obtains
port 5555, IPv4 reuses it) and a double failure returning the IPv6 error. -/
theorem LinuxUDP_bind_spec_witness :
    LinuxUDP.bind 0 (Except.ok ((5555 : Nat), (7 : Int)) : Except Nat (Nat × Int)) (fun p => Except.ok (p, 8)) = Except.ok ([LinuxUDPReader.V6 7, LinuxUDPReader.V4 8], { sock4 := 8, sock6 := 7 }, { port := 5555, sock4 := some 8, sock6 := some 7 }) ∧
      LinuxUDP.bind 2000 (Except.error (42 : Nat)) (fun _ => Except.error 43) = Except.error 42 := by
  constructor
  · exact (LinuxUDP_bind_spec 0 (Except.ok ((5555 : Nat), (7 : Int)) : Except Nat (Nat × Int)) (fun p => Except.ok (p, 8))).2.2 (Or.inl rfl)
  · exact (LinuxUDP_bind_spec 2000 (Except.error (42 : Nat)) (fun _ => Except.error 43)).2.1 42 43 rfl rfl

/-- CLAIM C7: evaluation at the failing input.  For any payload sent to an
IPv6 endpoint the writer hits `unimplemented!()` in `write6` and panics —
it neither sends the datagram nor returns a transient I/O error, refuting
"for every payload and every endpoint (both variants) the write sends or
returns a transient I/O error and never terminates any other way".  (The
IPv4 arm conforms for non-empty payloads; an empty payload panics in
`write4`'s `&buf[0]` indexing as well — see the C10 counterexample.) -/
theorem write_v6_panics :
    LinuxUDPWriter.write (fun _ _ _ => 0) { sock4 := 3, sock6 := 4 } [1] (LinuxEndpoint.V6 { dst := { sin6_family := 10, sin6_port := 80, sin6_flowinfo := 0, sin6_addr := List.replicate 16 0, sin6_scope_id := 0 }, info := { ipi6_addr := List.replicate 16 0, ipi6_ifindex := 0 } }) = WriteOutcome.panicked ∧
      WriteOutcome.panicked ≠ WriteOutcome.ok ∧ WriteOutcome.panicked ≠ WriteOutcome.ioError := by
  refine ⟨rfl, by decide, by decide⟩

/-- CLAIM C10, counterexample.  With the IPv4 family missing (descriptor
`-1`), a write of the *empty* payload to an IPv4 endpoint panics in
`write4`'s `&buf[0]` indexing (udp.rs line 299) before `sendmsg` is ever
attempted — it does not return an I/O error, refuting "every subsequent
write of any payload to an endpoint of the missing family ... (for a
missing IPv4 family it returns an I/O error)" at that payload.  (The
`sendmsg` oracle used here fails on every call, so the panic is not hiding a
would-be success.) -/
theorem missing_family_write_counterexample :
    LinuxUDPWriter.write (fun _ _ _ => -1) { sock4 := -1, sock6 := 9 } [] (LinuxEndpoint.V4 { dst := { sin_family := 2, sin_port := 80, sin_addr := 0 }, info := { ipi_ifindex := 0, ipi_spec_dst := 0, ipi_addr := 0 } }) = WriteOutcome.panicked ∧
      WriteOutcome.panicked ≠ WriteOutcome.ioError ∧ WriteOutcome.panicked ≠ WriteOutcome.ok := by
  refine ⟨rfl, by decide, by decide⟩

/-- CLAIM C10, amended.  When `bind` succeeds with one family missing, the
writer is still constructed with the missing family's descriptor set to `-1`
(`unwrap_or(-1)`), and every write to an endpoint of the missing family runs
on that invalid descriptor and never succeeds.  For a missing IPv4 family
the write returns an I/O error for every *non-empty* payload (`sendmsg` on a
negative descriptor fails); the empty payload instead panics in `write4`'s
`&buf[0]` indexing before `sendmsg` is reached.  For a missing IPv6 family
the write never returns ok (it panics in `write6`). -/
theorem missing_family_write {Er : Type} (port : Nat) (r6 : Except Er (Nat × Int)) (r4 : Nat → Except Er (Nat × Int)) :
    (∀ e4 rs w ow, r4 (bindPort1 port r6) = .error e4 → LinuxUDP.bind port r6 r4 = .ok (rs, w, ow) → w.sock4 = -1 ∧ ∀ (sendmsg : Int → List Nat → EndpointV4 → Int), (∀ fd buf dst, fd < 0 → sendmsg fd buf dst < 0) → ∀ buf e, (buf ≠ [] → LinuxUDPWriter.write sendmsg w buf (LinuxEndpoint.V4 e) = WriteOutcome.ioError) ∧ LinuxUDPWriter.write sendmsg w buf (LinuxEndpoint.V4 e) ≠ WriteOutcome.ok) ∧
      (∀ e6 rs w ow, r6 = .error e6 → LinuxUDP.bind port r6 r4 = .ok (rs, w, ow) → w.sock6 = -1 ∧ ∀ sendmsg buf e, LinuxUDPWriter.write sendmsg w buf (LinuxEndpoint.V6 e) ≠ WriteOutcome.ok) := by
  constructor
  · intro e4 rs w ow h4 hbind
    have hw : w.sock4 = -1 := by
      cases h6 : r6 with
      | ok p6 =>
        rw [h6] at hbind h4
        simp [LinuxUDP.bind, h4] at hbind
        rw [← hbind.2.1]
      | error e6 =>
        rw [h6] at hbind h4
        simp [LinuxUDP.bind, h4] at hbind
    refine ⟨hw, ?_⟩
    intro sendmsg hneg buf e
    have hsm : sendmsg w.sock4 buf e < 0 := by
      apply hneg
      rw [hw]
      decide
    unfold LinuxUDPWriter.write LinuxUDPWriter.write4
    dsimp only
    constructor
    · intro hbuf
      rw [if_neg hbuf, if_pos hsm]
    · by_cases hbuf : buf = []
      · rw [if_pos hbuf]
        decide
      · rw [if_neg hbuf, if_pos hsm]
        decide
  · intro e6 rs w ow h6 hbind
    have hw : w.sock6 = -1 := by
      cases h4 : r4 (bindPort1 port r6) with
      | ok p4 =>
        rw [h6] at hbind
        rw [h6] at h4
        simp [LinuxUDP.bind, h4] at hbind
        rw [← hbind.2.1]
      | error e4 =>
        rw [h6] at hbind
        rw [h6] at h4
        simp [LinuxUDP.bind, h4] at hbind
    refine ⟨hw, ?_⟩
    intro sendmsg buf e
    unfold LinuxUDPWriter.write LinuxUDPWriter.write6
    dsimp only
    decide

/-- Witness for `missing_family_write`: IPv6 binds (descriptor 9), IPv4
fails; a v4 write of a non-empty payload through the resulting writer errors
out, and even the empty payload never succeeds. -/
theorem missing_family_write_witness :
    ({ sock4 := -1, sock6 := 9 } : LinuxUDPWriter).sock4 = -1 ∧
      LinuxUDPWriter.write (fun fd _ _ => if fd < 0 then -1 else 0) { sock4 := -1, sock6 := 9 } [1, 2] (LinuxEndpoint.V4 { dst := { sin_family := 2, sin_port := 80, sin_addr := 0 }, info := { ipi_ifindex := 0, ipi_spec_dst := 0, ipi_addr := 0 } }) = WriteOutcome.ioError ∧
      LinuxUDPWriter.write (fun fd _ _ => if fd < 0 then -1 else 0) { sock4 := -1, sock6 := 9 } [] (LinuxEndpoint.V4 { dst := { sin_family := 2, sin_port := 80, sin_addr := 0 }, info := { ipi_ifindex := 0, ipi_spec_dst := 0, ipi_addr := 0 } }) ≠ WriteOutcome.ok := by
  have h := (missing_family_write 7000 (Except.ok ((7000 : Nat), (9 : Int)) : Except Nat (Nat × Int)) (fun _ => Except.error 13)).1 13 [LinuxUDPReader.V6 9] { sock4 := -1, sock6 := 9 } { port := 7000, sock4 := none, sock6 := some 9 } rfl rfl
  have h2 := h.2 (fun fd _ _ => if fd < 0 then -1 else 0) (fun fd buf dst hfd => by dsimp only; rw [if_pos hfd]; decide)
  exact ⟨h.1, (h2 [1, 2] { dst := { sin_family := 2, sin_port := 80, sin_addr := 0 }, info := { ipi_ifindex := 0, ipi_spec_dst := 0, ipi_addr := 0 } }).1 (by decide), (h2 [] { dst := { sin_family := 2, sin_port := 80, sin_addr := 0 }, info := { ipi_ifindex := 0, ipi_spec_dst := 0, ipi_addr := 0 } }).2⟩
